import Mathlib

/-!
Verification of the Brave rewards publisher-status subsystem:
the server publisher fetcher (`server_publisher_fetcher.cc`) and the
batch status refresher (`publisher_status_helper.cc`).

The C++ code is shallowly embedded: byte buffers are `List Nat` (each
element a byte value), timestamps are integer seconds, the mojo structs
are Lean structures, and the callback-driven fetcher is modelled as a
state machine over an explicit event trace.  External collaborators
(the Brotli decoder, the protobuf parser, the ledger configuration and
the index/fetch collaborators of the batch refresher) are abstracted as
function parameters, since their implementations live outside this
repository fragment.
-/

/-- Embedding of `ledger::PublisherStatus` (mojo enum): NOT_VERIFIED = 0, CONNECTED = 1,
VERIFIED = 2. -/
inductive PublisherStatus where
  | NOT_VERIFIED
  | CONNECTED
  | VERIFIED
deriving DecidableEq

/-- Embedding of `ledger::PublisherBanner` (mojo struct); only the fields touched by
`PublisherBannerFromMessage`.  Mojo strings default to empty, so the
"absent" background/logo are the empty string.  Donation amounts are
modelled as integers (their numeric value plays no role here). -/
structure PublisherBanner where
  title : String := ""
  description : String := ""
  background : String := ""
  logo : String := ""
  amounts : List Int := []
  links : List (String × String) := []
deriving DecidableEq

/-- Embedding of `ledger::ServerPublisherInfo` (mojo struct).  `ServerPublisherInfo::New()`
default-initializes every field: empty strings, zero timestamp, null banner. -/
structure ServerPublisherInfo where
  publisher_key : String := ""
  status : PublisherStatus := PublisherStatus.NOT_VERIFIED
  address : String := ""
  updated_at : Nat := 0
  banner : Option PublisherBanner := none
deriving DecidableEq

/-- Embedding of `ServerPublisherInfoPtr::Clone()`: a field-by-field deep copy producing an
independently-owned record. -/
def ServerPublisherInfo.Clone (info : ServerPublisherInfo) : ServerPublisherInfo :=
  { publisher_key := info.publisher_key
    status := info.status
    address := info.address
    updated_at := info.updated_at
    banner := info.banner }

/-- Embedding of `publishers_pb::ChannelResponse::wallet_connected_state` (proto enum,
declared in `channel_response.pb.h`, outside this fragment).  The source
switches on `UPHOLD_ACCOUNT_KYC` and `UPHOLD_ACCOUNT_NO_KYC`; every other
value falls into the `default` branch, collapsed here into one constructor. -/
inductive WalletConnectedState where
  | UPHOLD_ACCOUNT_KYC
  | UPHOLD_ACCOUNT_NO_KYC
  | UPHOLD_ACCOUNT_OTHER
deriving DecidableEq

/-- Embedding of `publishers_pb::SiteBannerDetails::social_links` sub-message. -/
structure SocialLinks where
  youtube : String := ""
  twitter : String := ""
  twitch : String := ""
deriving DecidableEq

/-- Embedding of `publishers_pb::SiteBannerDetails` sub-message. -/
structure SiteBannerDetails where
  title : String := ""
  description : String := ""
  background_url : String := ""
  logo_url : String := ""
  donation_amounts : List Int := []
  social_links : Option SocialLinks := none
deriving DecidableEq

/-- One entry of `publishers_pb::ChannelResponseList`. -/
structure ChannelResponse where
  channel_identifier : String := ""
  wallet_connected_state : WalletConnectedState := WalletConnectedState.UPHOLD_ACCOUNT_OTHER
  wallet_address : String := ""
  site_banner_details : Option SiteBannerDetails := none
deriving DecidableEq

/-- Embedding of `PublisherStatusFromMessage` (server_publisher_fetcher.cc:40-50). -/
def PublisherStatusFromMessage (response : ChannelResponse) : PublisherStatus :=
  match response.wallet_connected_state with
  | WalletConnectedState.UPHOLD_ACCOUNT_KYC => PublisherStatus.VERIFIED
  | WalletConnectedState.UPHOLD_ACCOUNT_NO_KYC => PublisherStatus.CONNECTED
  | WalletConnectedState.UPHOLD_ACCOUNT_OTHER => PublisherStatus.NOT_VERIFIED

/-- Embedding of `PublisherBannerFromMessage` (server_publisher_fetcher.cc:52-86). -/
def PublisherBannerFromMessage (banner_details : SiteBannerDetails) : PublisherBanner :=
  { title := banner_details.title
    description := banner_details.description
    background :=
      if banner_details.background_url ≠ "" then
        "chrome://rewards-image/" ++ banner_details.background_url
      else ""
    logo :=
      if banner_details.logo_url ≠ "" then
        "chrome://rewards-image/" ++ banner_details.logo_url
      else ""
    amounts := banner_details.donation_amounts
    links :=
      match banner_details.social_links with
      | none => []
      | some links =>
          (if links.youtube ≠ "" then [("youtube", links.youtube)] else []) ++
          (if links.twitter ≠ "" then [("twitter", links.twitter)] else []) ++
          (if links.twitch ≠ "" then [("twitch", links.twitch)] else []) }

/-- Embedding of `ServerPublisherInfoFromMessage` (server_publisher_fetcher.cc:88-116):
scan the response list for the first entry whose channel identifier equals
the expected key; `now` stands for `base::Time::Now().ToDoubleT()` cast to
`uint64_t`. -/
def ServerPublisherInfoFromMessage (now : Nat) (message : List ChannelResponse)
    (expected_key : String) : Option ServerPublisherInfo :=
  match message with
  | [] => none
  | entry :: rest =>
      if entry.channel_identifier ≠ expected_key then
        ServerPublisherInfoFromMessage now rest expected_key
      else
        some { publisher_key := entry.channel_identifier
               status := PublisherStatusFromMessage entry
               address := entry.wallet_address
               updated_at := now
               banner := Option.map PublisherBannerFromMessage entry.site_banner_details }

/-- Embedding of `base::ReadBigEndian` on the first four bytes of the buffer, yielding the
`uint32_t` length header. -/
def readBigEndian32 (s : List Nat) : Nat :=
  match s with
  | b0 :: b1 :: b2 :: b3 :: _ => b0 * 2 ^ 24 + b1 * 2 ^ 16 + b2 * 2 ^ 8 + b3
  | _ => 0

/-- Embedding of `RemovePadding` (server_publisher_fetcher.cc:119-140).  The C++ function
mutates a `string_view` in place and returns `bool`; embedded here as the
resulting view on success (`remove_prefix` of the 4-byte header, then
`remove_suffix` down to `data_length` bytes, i.e. `take`), or `none` on
failure.  The null-pointer guard has no counterpart for a value argument. -/
def RemovePadding (padded_string : List Nat) : Option (List Nat) :=
  if padded_string.length < 4 then
    none
  else
    let data_length := readBigEndian32 padded_string
    let rest := padded_string.drop 4
    if rest.length < data_length then
      none
    else
      some (rest.take data_length)

/-- Embedding of `uint64_t` → `int64_t` conversion (twos complement), as performed by the
implicit conversion in `GetCacheExpiryInSeconds`. -/
def uint64ToInt64 (n : Nat) : Int :=
  if n % 2 ^ 64 < 2 ^ 63 then ((n % 2 ^ 64 : Nat) : Int)
  else ((n % 2 ^ 64 : Nat) : Int) - 2 ^ 64

/-- Embedding of `GetCacheExpiryInSeconds` (server_publisher_fetcher.cc:32-38): reads the
`kOptionPublisherListRefreshInterval` uint64 option (abstracted as
`ttlOption`) and returns it as `int64_t`. -/
def GetCacheExpiryInSeconds (ttlOption : Nat) : Int :=
  uint64ToInt64 ttlOption

/-- Embedding of `ServerPublisherFetcher::IsExpired(base::Time)`
(server_publisher_fetcher.cc:261-274): `age = now - last_update_time`; a
negative age is logged but the return value is still `age > ttl`.  Times are
integer seconds (`TimeDelta::InSeconds`). -/
def ServerPublisherFetcher.IsExpired (now last_update_time : Int) (ttlOption : Nat) : Bool :=
  let age := now - last_update_time
  decide (age > GetCacheExpiryInSeconds ttlOption)

/-- Embedding of `ServerPublisherFetcher::IsExpired(ServerPublisherInfo*)`
(server_publisher_fetcher.cc:276-281): null record ⇒ expired. -/
def ServerPublisherFetcher.IsExpiredRecord (now : Int) (ttlOption : Nat) :
    Option ServerPublisherInfo → Bool
  | some server_info => ServerPublisherFetcher.IsExpired now (server_info.updated_at : Int) ttlOption
  | none => true

/-- Embedding of `ServerPublisherFetcher::GetServerInfoForEmptyResponse`
(server_publisher_fetcher.cc:283-301): synthesize a non-verified record;
`address` and `banner` keep their mojo defaults. -/
def ServerPublisherFetcher.GetServerInfoForEmptyResponse (now : Nat)
    (publisher_key : String) : ServerPublisherInfo :=
  { publisher_key := publisher_key
    status := PublisherStatus.NOT_VERIFIED
    address := ""
    updated_at := now
    banner := none }

/-- Embedding of `ServerPublisherFetcher::ParseResponse` (server_publisher_fetcher.cc:221-259).
`decompress` abstracts `DecompressMessage` (the external `BrotliStreamDecoder`):
`some out` when decoding reaches `Result::Done` with accumulated output `out`,
`none` on failure, in which case the source falls back to parsing the unpadded
payload as an uncompressed message.  `parseMessage` abstracts the generated
protobuf `ChannelResponseList::ParseFromString`.  404 and 200 are
`net::HTTP_NOT_FOUND` and `net::HTTP_OK`. -/
def ServerPublisherFetcher.ParseResponse
    (decompress : List Nat → Option (List Nat))
    (parseMessage : List Nat → Option (List ChannelResponse))
    (now : Nat) (publisher_key : String) (response_status_code : Nat)
    (response : List Nat) : Option ServerPublisherInfo :=
  if response_status_code = 404 then
    some (ServerPublisherFetcher.GetServerInfoForEmptyResponse now publisher_key)
  else if response_status_code ≠ 200 ∨ response = [] then
    none
  else
    match RemovePadding response with
    | none => none
    | some response_payload =>
        let message_string :=
          match decompress response_payload with
          | some out => out
          | none => response_payload
        match parseMessage message_string with
        | none => none
        | some message =>
            match ServerPublisherInfoFromMessage now message publisher_key with
            | some server_info => some server_info
            | none => some (ServerPublisherFetcher.GetServerInfoForEmptyResponse now publisher_key)

/-- Observable effects of the fetcher on its collaborators: the network
request issued by `LoadURL` (recorded by publisher key; the URL itself is a
fixed-shape function of the key hash value), the cache write performed by
`InsertServerPublisherInfo`, the error log emitted when that write fails, and
each callback invocation.  Callbacks are identified by opaque numeric ids. -/
inductive FetchEvent where
  | request : String → FetchEvent
  | storeWrite : ServerPublisherInfo → FetchEvent
  | storeFailureLog : FetchEvent
  | deliver : Nat → Option ServerPublisherInfo → FetchEvent
deriving DecidableEq

/-- Mutable state of the fetcher: `callback_map_` (a `std::multimap` from
publisher key to pending callback, kept in insertion order for equal keys)
plus the trace of observable events so far. -/
structure FetcherState where
  callback_map : List (String × Nat) := []
  events : List FetchEvent := []
deriving DecidableEq

/-- Embedding of `ServerPublisherFetcher::Fetch` (server_publisher_fetcher.cc:166-191):
record the callback under the key; if an entry for the key already existed a
fetch is in flight, so return without a network request; otherwise issue the
request. -/
def ServerPublisherFetcher.Fetch (s : FetcherState) (publisher_key : String)
    (callback : Nat) : FetcherState :=
  let has_entry := s.callback_map.any (fun e => e.1 == publisher_key)
  let s1 : FetcherState := { s with callback_map := s.callback_map ++ [(publisher_key, callback)] }
  if has_entry then s1
  else { s1 with events := s1.events ++ [FetchEvent.request publisher_key] }

/-- Embedding of `ServerPublisherFetcher::GetCallbacks` (server_publisher_fetcher.cc:303-312):
move out every callback registered for the key (in order) and erase those
entries from the map. -/
def ServerPublisherFetcher.GetCallbacks (s : FetcherState) (publisher_key : String) :
    List Nat × FetcherState :=
  ((s.callback_map.filter (fun e => e.1 == publisher_key)).map Prod.snd,
   { s with callback_map := s.callback_map.filter (fun e => e.1 != publisher_key) })

/-- Embedding of `ServerPublisherFetcher::RunCallbacks` (server_publisher_fetcher.cc:314-322):
clear the entries for the key and invoke each callback with its own `Clone()` of the
record (or null). -/
def ServerPublisherFetcher.RunCallbacks (s : FetcherState) (publisher_key : String)
    (server_info : Option ServerPublisherInfo) : FetcherState :=
  let moved := ServerPublisherFetcher.GetCallbacks s publisher_key
  { moved.2 with
    events := moved.2.events ++
      moved.1.map (fun c => FetchEvent.deliver c (Option.map ServerPublisherInfo.Clone server_info)) }

/-- Embedding of `ServerPublisherFetcher::OnFetchCompleted` (server_publisher_fetcher.cc:193-219):
parse; on failure fan out null; on success write the record to the store and,
from the completion callback of the store — whether or not the write succeeded
(`store_ok`; failure is only logged) — fan out the record. -/
def ServerPublisherFetcher.OnFetchCompleted
    (decompress : List Nat → Option (List Nat))
    (parseMessage : List Nat → Option (List ChannelResponse))
    (now : Nat) (s : FetcherState) (publisher_key : String)
    (status_code : Nat) (body : List Nat) (store_ok : Bool) : FetcherState :=
  match ServerPublisherFetcher.ParseResponse decompress parseMessage now publisher_key
      status_code body with
  | none => ServerPublisherFetcher.RunCallbacks s publisher_key none
  | some server_info =>
      let s1 : FetcherState := { s with events := s.events ++ [FetchEvent.storeWrite server_info] }
      let s2 : FetcherState :=
        if store_ok then s1
        else { s1 with events := s1.events ++ [FetchEvent.storeFailureLog] }
      ServerPublisherFetcher.RunCallbacks s2 publisher_key (some server_info)

/-- Embedding of `braveledger_publisher::PublisherStatusData` (publisher_status_helper.h:22-25). -/
structure PublisherStatusData where
  status : PublisherStatus
  updated_at : Nat
deriving DecidableEq

/-- Embedding of `RefreshNext` (publisher_status_helper.cc:35-70), with the three external
collaborators abstracted: `shouldFetch` is
`LedgerImpl::ShouldFetchServerPublisherInfo` applied to the
`updated_at` of an entry, `existsInIndex` is `SearchPublisherList`, and `fetchStatus` is
the status delivered by `RefreshPublisher`.  The `std::map` is embedded as
its ordered entry list and the cursor as structural recursion; the returned
triple is (final map, index lookups issued, fetches issued), each log in scan
order.  An entry that is not expired is skipped by the `find_if`; an expired
entry always gets an index lookup; only an expired entry present in the index
gets a fetch, which overwrites exactly its `status` field. -/
def RefreshNext (shouldFetch : Nat → Bool) (existsInIndex : String → Bool)
    (fetchStatus : String → PublisherStatus) :
    List (String × PublisherStatusData) →
    List (String × PublisherStatusData) × List String × List String
  | [] => ([], [], [])
  | e :: rest =>
      if shouldFetch e.2.updated_at then
        if existsInIndex e.1 then
          let r := RefreshNext shouldFetch existsInIndex fetchStatus rest
          ((e.1, { e.2 with status := fetchStatus e.1 }) :: r.1, e.1 :: r.2.1, e.1 :: r.2.2)
        else
          let r := RefreshNext shouldFetch existsInIndex fetchStatus rest
          (e :: r.1, e.1 :: r.2.1, r.2.2)
      else
        let r := RefreshNext shouldFetch existsInIndex fetchStatus rest
        (e :: r.1, r.2.1, r.2.2)

/-- Embedding of `std::map::operator[]` on a `PublisherStatusMap`: the stored value when
the key is present, otherwise the value-initialized `PublisherStatusData`
(zero-initialized aggregate: status `PublisherStatus(0)` = NOT_VERIFIED,
`updated_at` 0) that `operator[]` default-inserts. -/
def statusMapIndex (m : List (String × PublisherStatusData)) (key : String) :
    PublisherStatusData :=
  match m.find? (fun e => e.1 == key) with
  | some e => e.2
  | none => { status := PublisherStatus.NOT_VERIFIED, updated_at := 0 }

/-- Embedding of `ledger::PublisherInfo`, restricted to the fields the adapter touches
(`id` and `status`). -/
structure PublisherInfo where
  id : String
  status : PublisherStatus
deriving DecidableEq

/-- Embedding of `ledger::PendingContributionInfo`, restricted to the fields the adapter
touches (`publisher_key` and `status`). -/
structure PendingContributionInfo where
  publisher_key : String
  status : PublisherStatus
deriving DecidableEq

/-- Embedding of `RefreshPublisherStatus` PublisherInfoList adapter
(publisher_status_helper.cc:86-101): refresh the status map, then overwrite
the status of each list record with `status_map[info->id].status`. -/
def RefreshPublisherStatusList (shouldFetch : Nat → Bool) (existsInIndex : String → Bool)
    (fetchStatus : String → PublisherStatus) (status_map : List (String × PublisherStatusData))
    (info_list : List PublisherInfo) : List PublisherInfo :=
  let refreshed := (RefreshNext shouldFetch existsInIndex fetchStatus status_map).1
  info_list.map (fun info => { info with status := (statusMapIndex refreshed info.id).status })

/-- Embedding of `RefreshPublisherStatus` PendingContributionInfoList adapter
(publisher_status_helper.cc:103-118): refresh the status map, then overwrite
the status of each list record with `status_map[info->publisher_key].status`. -/
def RefreshPendingContributionList (shouldFetch : Nat → Bool) (existsInIndex : String → Bool)
    (fetchStatus : String → PublisherStatus) (status_map : List (String × PublisherStatusData))
    (info_list : List PendingContributionInfo) : List PendingContributionInfo :=
  let refreshed := (RefreshNext shouldFetch existsInIndex fetchStatus status_map).1
  info_list.map (fun info =>
    { info with status := (statusMapIndex refreshed info.publisher_key).status })

/-! ## Helper lemmas -/

/-- Cloning a record produces an equal record (the copy is field-by-field). -/
@[simp]
theorem ServerPublisherInfo.clone_eq (info : ServerPublisherInfo) : info.Clone = info :=
  rfl

/-- A successful scan of the channel-response list yields a record whose
`publisher_key` is the expected key, since entries with any other channel
identifier are skipped. -/
theorem serverPublisherInfoFromMessage_key (now : Nat) (message : List ChannelResponse)
    (k : String) (si : ServerPublisherInfo) :
    ServerPublisherInfoFromMessage now message k = some si → si.publisher_key = k := by
  induction message with
  | nil => intro h; simp [ServerPublisherInfoFromMessage] at h
  | cons entry rest ih =>
      intro h
      rw [ServerPublisherInfoFromMessage] at h
      by_cases hid : entry.channel_identifier ≠ k
      · rw [if_pos hid] at h
        exact ih h
      · rw [if_neg hid] at h
        push_neg at hid
        simp only [Option.some.injEq] at h
        rw [← h]
        exact hid

/-! ## Claim theorems -/

/-- C1 counterexample: the claim states that a future `last_update_time`
(negative age) makes `IsExpired` return `true`; at `now = 100`,
`last_update_time = 101` (age `= -1`) and configured TTL `3600`, the code
returns `false` — the record is treated as fresh. -/
theorem isExpired_future_timestamp_cex :
    ServerPublisherFetcher.IsExpired 100 101 3600 = false := by
  decide

/-- C1 (amended): for every `last_update_time` strictly in the future
(age `< 0`), `IsExpired` logs the anomaly but still returns `age > ttl`,
which is `false` whenever the configured TTL option is a non-negative
`int64` (option value `< 2^63`) — the record is treated as fresh, never as
expired. -/
theorem isExpired_future_timestamp_fresh :
    ∀ (now last_update_time : Int) (ttlOption : Nat),
      now < last_update_time → ttlOption < 2 ^ 63 →
      ServerPublisherFetcher.IsExpired now last_update_time ttlOption = false := by
  intro now last ttl hfuture httl
  have hmod : ttl % 2 ^ 64 = ttl := Nat.mod_eq_of_lt (lt_trans httl (by norm_num))
  unfold ServerPublisherFetcher.IsExpired GetCacheExpiryInSeconds uint64ToInt64
  rw [hmod, if_pos httl]
  simp only [decide_eq_false_iff_not, not_lt]
  omega

/-- Witness for the amended C1 theorem at `now = 0`, `last_update_time = 5`,
TTL option `7200`. -/
theorem isExpired_future_timestamp_fresh_witness :
    ServerPublisherFetcher.IsExpired 0 5 7200 = false :=
  isExpired_future_timestamp_fresh 0 5 7200 (by decide) (by decide)

/-- C8: for a non-negative age (in seconds), `IsExpired` returns `true` iff
the age strictly exceeds the configured TTL read from the shared
publisher-prefix-list refresh-interval option (so `age = ttl` is not expired
and `age = ttl + 1` is expired); and `IsExpired` of an absent (null) record
is always `true`. -/
theorem isExpired_ttl_boundary_and_null :
    (∀ (now last_update_time : Int) (ttlOption : Nat),
        0 ≤ now - last_update_time → ttlOption < 2 ^ 63 →
        (ServerPublisherFetcher.IsExpired now last_update_time ttlOption = true ↔
          now - last_update_time > (ttlOption : Int))) ∧
    (∀ (now : Int) (ttlOption : Nat),
        ServerPublisherFetcher.IsExpiredRecord now ttlOption none = true) := by
  constructor
  · intro now last ttl _ httl
    have hmod : ttl % 2 ^ 64 = ttl := Nat.mod_eq_of_lt (lt_trans httl (by norm_num))
    unfold ServerPublisherFetcher.IsExpired GetCacheExpiryInSeconds uint64ToInt64
    rw [hmod, if_pos httl]
    simp
  · intro now ttl
    rfl

/-- Witness for C8 at age `3700` against TTL `3600`, and the null record. -/
theorem isExpired_ttl_boundary_and_null_witness :
    (ServerPublisherFetcher.IsExpired 3700 0 3600 = true ↔
      (3700 : Int) - 0 > ((3600 : Nat) : Int)) ∧
    ServerPublisherFetcher.IsExpiredRecord 0 3600 none = true :=
  ⟨isExpired_ttl_boundary_and_null.1 3700 0 3600 (by decide) (by decide),
   isExpired_ttl_boundary_and_null.2 0 3600⟩

/-- C3: `RemovePadding` fails on a buffer shorter than 4 bytes; fails when
the 4-byte big-endian declared length exceeds the bytes remaining after the
header; and otherwise succeeds with exactly the declared number of bytes
immediately following the header, discarding all trailing padding. -/
theorem removePadding_spec :
    ∀ s : List Nat,
      (s.length < 4 → RemovePadding s = none) ∧
      (4 ≤ s.length → s.length - 4 < readBigEndian32 s → RemovePadding s = none) ∧
      (4 ≤ s.length → readBigEndian32 s ≤ s.length - 4 →
        RemovePadding s = some ((s.drop 4).take (readBigEndian32 s))) := by
  intro s
  refine ⟨fun hshort => ?_, fun h4 hover => ?_, fun h4 hfit => ?_⟩
  · rw [RemovePadding, if_pos hshort]
  · rw [RemovePadding, if_neg (by omega)]
    simp only [List.length_drop]
    rw [if_pos (by omega)]
  · rw [RemovePadding, if_neg (by omega)]
    simp only [List.length_drop]
    rw [if_neg (by omega)]

/-- Witness for C3: a 2-byte buffer fails; a buffer declaring 5 bytes with
only 2 remaining fails; `[0,0,0,2][9,8][7]` yields exactly `[9,8]`. -/
theorem removePadding_spec_witness :
    RemovePadding [1, 2] = none ∧
    RemovePadding [0, 0, 0, 5, 1, 2] = none ∧
    RemovePadding [0, 0, 0, 2, 9, 8, 7] = some [9, 8] := by
  refine ⟨(removePadding_spec [1, 2]).1 (by decide),
          (removePadding_spec [0, 0, 0, 5, 1, 2]).2.1 (by decide) (by decide), ?_⟩
  have h := (removePadding_spec [0, 0, 0, 2, 9, 8, 7]).2.2 (by decide) (by decide)
  simpa using h

/-- C2: if `Fetch(k, cb2)` is called while an entry for `k` already exists in
the pending-callback table, no network request is issued (the event trace is
unchanged) and `cb2` is appended to the table; when the in-flight fetch
completes with any result, the fan-out delivers to every callback registered
for `k` — the earlier ones and `cb2` — exactly one clone of the result each
(null on failure), and clears the table entries for `k`; and a clone is an
independently-owned record equal to the original. -/
theorem fetch_coalesces_and_fans_out :
    ∀ (s : FetcherState) (k : String) (cb2 : Nat),
      s.callback_map.any (fun e => e.1 == k) = true →
      ((ServerPublisherFetcher.Fetch s k cb2).events = s.events ∧
       (ServerPublisherFetcher.Fetch s k cb2).callback_map = s.callback_map ++ [(k, cb2)] ∧
       (∀ result : Option ServerPublisherInfo,
         (ServerPublisherFetcher.RunCallbacks
             (ServerPublisherFetcher.Fetch s k cb2) k result).events =
           s.events ++
             (((s.callback_map.filter (fun e => e.1 == k)).map Prod.snd) ++ [cb2]).map
               (fun c => FetchEvent.deliver c (Option.map ServerPublisherInfo.Clone result)) ∧
         (ServerPublisherFetcher.RunCallbacks
             (ServerPublisherFetcher.Fetch s k cb2) k result).callback_map =
           s.callback_map.filter (fun e => e.1 != k)) ∧
       (∀ info : ServerPublisherInfo, info.Clone = info)) := by
  intro s k cb2 hin
  have hfetch : ServerPublisherFetcher.Fetch s k cb2 =
      { s with callback_map := s.callback_map ++ [(k, cb2)] } := by
    rw [ServerPublisherFetcher.Fetch]
    simp [hin]
  refine ⟨by rw [hfetch], by rw [hfetch], fun result => ?_, fun info => rfl⟩
  rw [hfetch]
  constructor
  · simp [ServerPublisherFetcher.RunCallbacks, ServerPublisherFetcher.GetCallbacks,
          List.filter_append]
  · simp [ServerPublisherFetcher.RunCallbacks, ServerPublisherFetcher.GetCallbacks,
          List.filter_append]

/-- Witness for C2: with callback `1` already registered for `"a"`, fetching
with callback `2` and completing with a null result delivers null to both
callbacks exactly once each. -/
theorem fetch_coalesces_and_fans_out_witness :
    (ServerPublisherFetcher.RunCallbacks
        (ServerPublisherFetcher.Fetch { callback_map := [("a", 1)], events := [] } "a" 2)
        "a" none).events =
      [FetchEvent.deliver 1 none, FetchEvent.deliver 2 none] := by
  have h := fetch_coalesces_and_fans_out { callback_map := [("a", 1)], events := [] } "a" 2
    (by decide)
  exact ((h.2.2.1 none).1).trans (by decide)

/-- C4: a 404 (`net::HTTP_NOT_FOUND`) response makes `ParseResponse` succeed
with a synthesized record — status `NOT_VERIFIED`, `publisher_key` equal to
the requested key, `updated_at = now`, no banner, empty wallet address — and
the completion path appends exactly one cache-store write for that record
before the fan-out deliveries, for any number of registered waiters and any
store outcome. -/
theorem parse_notFound_synthesizes_and_stores_once :
    ∀ (decompress : List Nat → Option (List Nat))
      (parseMessage : List Nat → Option (List ChannelResponse))
      (now : Nat) (s : FetcherState) (k : String) (body : List Nat) (store_ok : Bool),
      ServerPublisherFetcher.ParseResponse decompress parseMessage now k 404 body =
        some { publisher_key := k, status := PublisherStatus.NOT_VERIFIED, address := "",
               updated_at := now, banner := none } ∧
      (ServerPublisherFetcher.OnFetchCompleted decompress parseMessage now s k 404 body
          store_ok).events =
        s.events ++
          [FetchEvent.storeWrite (ServerPublisherFetcher.GetServerInfoForEmptyResponse now k)] ++
          (if store_ok then [] else [FetchEvent.storeFailureLog]) ++
          ((s.callback_map.filter (fun e => e.1 == k)).map Prod.snd).map
            (fun c => FetchEvent.deliver c
              (some (ServerPublisherFetcher.GetServerInfoForEmptyResponse now k))) := by
  intro decompress parseMessage now s k body store_ok
  have hp : ServerPublisherFetcher.ParseResponse decompress parseMessage now k 404 body =
      some (ServerPublisherFetcher.GetServerInfoForEmptyResponse now k) := by
    rw [ServerPublisherFetcher.ParseResponse, if_pos rfl]
  refine ⟨hp, ?_⟩
  rw [ServerPublisherFetcher.OnFetchCompleted, hp]
  cases store_ok <;>
    simp [ServerPublisherFetcher.RunCallbacks, ServerPublisherFetcher.GetCallbacks,
          List.append_assoc]

/-- C6: a response whose status code is neither 200 nor 404, or a 200
response with an empty body, is a hard failure: `ParseResponse` yields no
record, the completion path performs no cache-store write (its only appended
events are deliveries), and every registered waiter for the key is delivered
null, the table entries for the key being cleared. -/
theorem parse_error_fans_out_null :
    ∀ (decompress : List Nat → Option (List Nat))
      (parseMessage : List Nat → Option (List ChannelResponse))
      (now : Nat) (s : FetcherState) (k : String) (code : Nat) (body : List Nat)
      (store_ok : Bool),
      ((code ≠ 200 ∧ code ≠ 404) ∨ (code = 200 ∧ body = [])) →
      (ServerPublisherFetcher.ParseResponse decompress parseMessage now k code body = none ∧
       (ServerPublisherFetcher.OnFetchCompleted decompress parseMessage now s k code body
           store_ok).events =
         s.events ++
           ((s.callback_map.filter (fun e => e.1 == k)).map Prod.snd).map
             (fun c => FetchEvent.deliver c none) ∧
       (ServerPublisherFetcher.OnFetchCompleted decompress parseMessage now s k code body
           store_ok).callback_map =
         s.callback_map.filter (fun e => e.1 != k)) := by
  intro decompress parseMessage now s k code body store_ok h
  have hp : ServerPublisherFetcher.ParseResponse decompress parseMessage now k code body =
      none := by
    rcases h with ⟨h200, h404⟩ | ⟨h200, hbody⟩
    · rw [ServerPublisherFetcher.ParseResponse, if_neg h404, if_pos (Or.inl h200)]
    · rw [ServerPublisherFetcher.ParseResponse, if_neg (by omega), if_pos (Or.inr hbody)]
  refine ⟨hp, ?_, ?_⟩ <;>
  · rw [ServerPublisherFetcher.OnFetchCompleted, hp]
    simp [ServerPublisherFetcher.RunCallbacks, ServerPublisherFetcher.GetCallbacks]

/-- Witness for C6: a 500 response with callback `1` registered for `"a"`
delivers null to that callback and writes nothing to the store. -/
theorem parse_error_fans_out_null_witness :
    ServerPublisherFetcher.ParseResponse (fun _ => none) (fun _ => none) 5 "a" 500 [3] =
      none ∧
    (ServerPublisherFetcher.OnFetchCompleted (fun _ => none) (fun _ => none) 5
        { callback_map := [("a", 1)], events := [] } "a" 500 [3] true).events =
      [FetchEvent.deliver 1 none] := by
  have h := parse_error_fans_out_null (fun _ => none) (fun _ => none) 5
    { callback_map := [("a", 1)], events := [] } "a" 500 [3] true
    (Or.inl (by omega))
  exact ⟨h.1, h.2.1.trans (by decide)⟩

/-- C7: whenever `ParseResponse` succeeds (including the synthesized
not-found record), the completion path appends exactly one cache-store write
for the decoded record, before all fan-out deliveries, regardless of how many
waiters are registered; and whether the store write succeeds or fails, every
registered waiter is still delivered the decoded record. -/
theorem store_once_before_fanout_delivery :
    ∀ (decompress : List Nat → Option (List Nat))
      (parseMessage : List Nat → Option (List ChannelResponse))
      (now : Nat) (s : FetcherState) (k : String) (code : Nat) (body : List Nat)
      (server_info : ServerPublisherInfo),
      ServerPublisherFetcher.ParseResponse decompress parseMessage now k code body =
        some server_info →
      ∀ store_ok : Bool,
        (ServerPublisherFetcher.OnFetchCompleted decompress parseMessage now s k code body
            store_ok).events =
          s.events ++ [FetchEvent.storeWrite server_info] ++
            (if store_ok then [] else [FetchEvent.storeFailureLog]) ++
            ((s.callback_map.filter (fun e => e.1 == k)).map Prod.snd).map
              (fun c => FetchEvent.deliver c (some server_info)) := by
  intro decompress parseMessage now s k code body server_info hp store_ok
  rw [ServerPublisherFetcher.OnFetchCompleted, hp]
  cases store_ok <;>
    simp [ServerPublisherFetcher.RunCallbacks, ServerPublisherFetcher.GetCallbacks,
          List.append_assoc]

/-- Witness for C7: a 404 completion with two waiters for `"a"` and a failing
store write still delivers the synthesized record to both waiters, after the
single store write and its failure log. -/
theorem store_once_before_fanout_delivery_witness :
    (ServerPublisherFetcher.OnFetchCompleted (fun _ => none) (fun _ => none) 5
        { callback_map := [("a", 1), ("a", 2)], events := [] } "a" 404 [] false).events =
      [FetchEvent.storeWrite (ServerPublisherFetcher.GetServerInfoForEmptyResponse 5 "a"),
       FetchEvent.storeFailureLog,
       FetchEvent.deliver 1 (some (ServerPublisherFetcher.GetServerInfoForEmptyResponse 5 "a")),
       FetchEvent.deliver 2 (some (ServerPublisherFetcher.GetServerInfoForEmptyResponse 5 "a"))] := by
  have h := store_once_before_fanout_delivery (fun _ => none) (fun _ => none) 5
    { callback_map := [("a", 1), ("a", 2)], events := [] } "a" 404 []
    (ServerPublisherFetcher.GetServerInfoForEmptyResponse 5 "a") (by decide) false
  exact h.trans (by decide)

/-- C10: every record returned by `ParseResponse` — whether decoded from a
matching wire entry or synthesized for the not-found/no-match cases — has its
`publisher_key` field equal to the requested key. -/
theorem parseResponse_key_matches :
    ∀ (decompress : List Nat → Option (List Nat))
      (parseMessage : List Nat → Option (List ChannelResponse))
      (now : Nat) (k : String) (code : Nat) (body : List Nat)
      (server_info : ServerPublisherInfo),
      ServerPublisherFetcher.ParseResponse decompress parseMessage now k code body =
        some server_info →
      server_info.publisher_key = k := by
  intro decompress parseMessage now k code body server_info h
  rw [ServerPublisherFetcher.ParseResponse] at h
  by_cases h404 : code = 404
  · rw [if_pos h404] at h
    simp only [Option.some.injEq] at h
    rw [← h]
    rfl
  · rw [if_neg h404] at h
    by_cases herr : code ≠ 200 ∨ body = []
    · rw [if_pos herr] at h
      exact absurd h (by simp)
    · rw [if_neg herr] at h
      rcases hrp : RemovePadding body with _ | payload
      · rw [hrp] at h
        exact absurd h (by simp)
      · rw [hrp] at h
        simp only at h
        rcases hpm : parseMessage
            (match decompress payload with
             | some out => out
             | none => payload) with _ | message
        · rw [hpm] at h
          exact absurd h (by simp)
        · rw [hpm] at h
          simp only at h
          rcases hsi : ServerPublisherInfoFromMessage now message k with _ | si
          · rw [hsi] at h
            simp only [Option.some.injEq] at h
            rw [← h]
            rfl
          · rw [hsi] at h
            simp only [Option.some.injEq] at h
            rw [← h]
            exact serverPublisherInfoFromMessage_key now message k si hsi

/-- Witness for C10 at the synthesized 404 record for key `"a"`. -/
theorem parseResponse_key_matches_witness :
    (ServerPublisherFetcher.GetServerInfoForEmptyResponse 5 "a").publisher_key = "a" :=
  parseResponse_key_matches (fun _ => none) (fun _ => none) 5 "a" 404 []
    (ServerPublisherFetcher.GetServerInfoForEmptyResponse 5 "a") (by decide)

/-- C5: the batch scan visits every entry: an expired entry whose key the
index reports absent gets no fetch and keeps its status (and everything
else), and the scan continues past it; an expired entry whose key is present
gets its fetched status written into exactly its `status` field, with its key
and `updated_at` — and every other entry — unchanged.  Concretely, the final
map is the pointwise update of the input map at exactly the
expired-and-present entries, the fetch log lists exactly the
expired-and-present keys, and the index-lookup log lists exactly the expired
keys, each in scan order. -/
theorem refreshNext_frame_and_fetch_log :
    ∀ (shouldFetch : Nat → Bool) (existsInIndex : String → Bool)
      (fetchStatus : String → PublisherStatus)
      (m : List (String × PublisherStatusData)),
      (RefreshNext shouldFetch existsInIndex fetchStatus m).1 =
        m.map (fun e =>
          if shouldFetch e.2.updated_at && existsInIndex e.1 then
            (e.1, { e.2 with status := fetchStatus e.1 })
          else e) ∧
      (RefreshNext shouldFetch existsInIndex fetchStatus m).2.1 =
        (m.filter (fun e => shouldFetch e.2.updated_at)).map Prod.fst ∧
      (RefreshNext shouldFetch existsInIndex fetchStatus m).2.2 =
        (m.filter (fun e => shouldFetch e.2.updated_at && existsInIndex e.1)).map Prod.fst := by
  intro shouldFetch existsInIndex fetchStatus m
  induction m with
  | nil => exact ⟨rfl, rfl, rfl⟩
  | cons e rest ih =>
      obtain ⟨ih1, ih2, ih3⟩ := ih
      by_cases h1 : shouldFetch e.2.updated_at <;> by_cases h2 : existsInIndex e.1 <;>
        simp [RefreshNext, h1, h2, ih1, ih2, ih3]

/-- C9: in both list adapters layered on the refresher, a record whose key is
absent from the refreshed status map does not keep its previous status: the
`operator[]` lookup default-inserts a value-initialized entry, so the
record status field is overwritten with the zero `PublisherStatus` value,
NOT_VERIFIED. -/
theorem adapter_absent_key_status_zeroed :
    ∀ (shouldFetch : Nat → Bool) (existsInIndex : String → Bool)
      (fetchStatus : String → PublisherStatus)
      (m : List (String × PublisherStatusData)) (k : String)
      (info_list : List PublisherInfo) (pending_list : List PendingContributionInfo),
      (∀ e ∈ (RefreshNext shouldFetch existsInIndex fetchStatus m).1, e.1 ≠ k) →
      ((∀ i ∈ RefreshPublisherStatusList shouldFetch existsInIndex fetchStatus m info_list,
          i.id = k → i.status = PublisherStatus.NOT_VERIFIED) ∧
       (∀ i ∈ RefreshPendingContributionList shouldFetch existsInIndex fetchStatus m
            pending_list,
          i.publisher_key = k → i.status = PublisherStatus.NOT_VERIFIED)) := by
  intro shouldFetch existsInIndex fetchStatus m k info_list pending_list habsent
  have hidx : statusMapIndex (RefreshNext shouldFetch existsInIndex fetchStatus m).1 k =
      { status := PublisherStatus.NOT_VERIFIED, updated_at := 0 } := by
    rw [statusMapIndex, List.find?_eq_none.mpr]
    intro e he
    simpa using habsent e he
  constructor
  · intro i hi hik
    rw [RefreshPublisherStatusList] at hi
    simp only [List.mem_map] at hi
    obtain ⟨orig, _, horig⟩ := hi
    rw [← horig] at hik ⊢
    simp only at hik ⊢
    rw [hik, hidx]
  · intro i hi hik
    rw [RefreshPendingContributionList] at hi
    simp only [List.mem_map] at hi
    obtain ⟨orig, _, horig⟩ := hi
    rw [← horig] at hik ⊢
    simp only at hik ⊢
    rw [hik, hidx]

/-- Witness for C9: key `"b"` is absent from the refreshed map built from
`[("a", (VERIFIED, 7))]`, so a publisher record and a pending-contribution
record with id `"b"` both come out with status NOT_VERIFIED even though they
went in VERIFIED. -/
theorem adapter_absent_key_status_zeroed_witness :
    (∀ i ∈ RefreshPublisherStatusList (fun _ => true) (fun _ => true)
        (fun _ => PublisherStatus.CONNECTED)
        [("a", { status := PublisherStatus.VERIFIED, updated_at := 7 })]
        [{ id := "b", status := PublisherStatus.VERIFIED }],
      i.id = "b" → i.status = PublisherStatus.NOT_VERIFIED) ∧
    (∀ i ∈ RefreshPendingContributionList (fun _ => true) (fun _ => true)
        (fun _ => PublisherStatus.CONNECTED)
        [("a", { status := PublisherStatus.VERIFIED, updated_at := 7 })]
        [{ publisher_key := "b", status := PublisherStatus.VERIFIED }],
      i.publisher_key = "b" → i.status = PublisherStatus.NOT_VERIFIED) :=
  adapter_absent_key_status_zeroed (fun _ => true) (fun _ => true)
    (fun _ => PublisherStatus.CONNECTED)
    [("a", { status := PublisherStatus.VERIFIED, updated_at := 7 })] "b"
    [{ id := "b", status := PublisherStatus.VERIFIED }]
    [{ publisher_key := "b", status := PublisherStatus.VERIFIED }]
    (by decide)
